import Mathlib

/-!
Verification development for a Python MCP gateway exposing an MSSQL database
(`src/mssql_mcp_server/server.py`).

The Python source is shallowly embedded below.  Pure helpers
(`validate_table_name`, `is_select_query`, `get_db_config`) become Lean
functions on `String` / `List Char`; the four request handlers
(`list_resources`, `read_resource`, `list_tools`, `call_tool`) become pure
functions over an explicit database `Oracle` (modelling the pyodbc
connection/cursor behaviour) that also report how many connections the call
opened and how many it closed before returning.  Python exceptions are
modelled with `Except String`.
-/

deriving instance DecidableEq for Except

namespace MssqlMcp

/-- Truthiness-aware success test for `Except` results: `true` exactly on `.ok`. -/
def isOkE {α : Type} : Except String α → Bool
  | .ok _ => true
  | .error _ => false

/-! ## Character-level helpers shared by the embedded functions -/

/-- ASCII whitespace recognised by Python's `str.split()` / `str.strip()`
(restricted to the ASCII range; the source only ever meets ASCII SQL text). -/
def isPySpace (c : Char) : Bool :=
  c == ' ' || c == '\t' || c == '\n' || c == '\r' || c == '\x0b' || c == '\x0c'

/-- Python substring containment `needle in hay` on character lists. -/
def hasSubList (needle : List Char) : List Char → Bool
  | [] => needle.isEmpty
  | c :: rest => needle.isPrefixOf (c :: rest) || hasSubList needle rest

/-- Python substring containment `needle in hay` for strings. -/
def hasSubStr (needle hay : String) : Bool :=
  hasSubList needle.data hay.data

/-- Python `s.startswith(pre)`. -/
def startsWithStr (pre s : String) : Bool :=
  pre.data.isPrefixOf s.data

/-- Python `str.split(sep)` for a one-character separator (always returns a
non-empty list; `"".split(sep) == [""]`). -/
def splitOnChar (sep : Char) : List Char → List (List Char)
  | [] => [[]]
  | c :: rest =>
    if c == sep then [] :: splitOnChar sep rest
    else
      match splitOnChar sep rest with
      | [] => [[c]]
      | g :: gs => (c :: g) :: gs

/-- Python `str.upper()` (ASCII; the source only compares against `"SELECT"`). -/
def upperL (cs : List Char) : List Char :=
  cs.map Char.toUpper

/-- Python `str.upper()` on a `String`. -/
def upperStr (s : String) : String :=
  String.mk (upperL s.data)

/-- Python `str.lower()` (ASCII; the source only compares against `"true"`). -/
def lowerStr (s : String) : String :=
  String.mk (s.data.map Char.toLower)

/-- Python `sep.join(ss)`. -/
def joinSep (sep : String) : List String → String
  | [] => ""
  | [a] => a
  | a :: rest => a ++ sep ++ joinSep sep rest

/-! ## `validate_table_name` (server.py lines 17-30)

The source tests `re.match(r'^[a-zA-Z0-9_]+(\.[a-zA-Z0-9_]+)?$', table_name)`.
Note the Python `re` semantics of `$`: it matches at the end of the string
*or just before a trailing newline*, so a name with one trailing `'\n'` is
accepted by the source even though the character class excludes `'\n'`. -/

/-- One character of the class `[a-zA-Z0-9_]`. -/
def isWordChar (c : Char) : Bool :=
  c.isAlphanum || c == '_'

/-- Matcher for `[a-zA-Z0-9_]+(\.[a-zA-Z0-9_]+)?` anchored at both ends of the
character list (no `$`-newline allowance yet). -/
def coreMatch (cs : List Char) : Bool :=
  let w := cs.takeWhile isWordChar
  let r := cs.dropWhile isWordChar
  if w.isEmpty then false
  else
    match r with
    | [] => true
    | '.' :: r2 =>
      let w2 := r2.takeWhile isWordChar
      let r3 := r2.dropWhile isWordChar
      !w2.isEmpty && r3.isEmpty
    | _ => false

/-- Python `re.match(r'^[a-zA-Z0-9_]+(\.[a-zA-Z0-9_]+)?$', s)` as a Bool:
the anchored pattern, where `$` also matches just before a trailing newline. -/
def reMatchTable (cs : List Char) : Bool :=
  coreMatch cs || (cs.getLast? == some '\n' && coreMatch cs.dropLast)

/-- Embedding of `validate_table_name` (server.py lines 17-30). -/
def validate_table_name (table_name : String) : Except String String :=
  if !reMatchTable table_name.data then
    .error ("Invalid table name: " ++ table_name)
  else
    let parts := splitOnChar '.' table_name.data
    if parts.length == 2 then
      .ok ("[" ++ String.mk (parts.getD 0 []) ++ "].[" ++ String.mk (parts.getD 1 []) ++ "]")
    else
      .ok ("[" ++ table_name ++ "]")

/-! ## `is_select_query` (server.py lines 118-140) -/

/-- Scan for the first occurrence of the two-character close marker and
return the remainder after it (first match of a non-greedy search). -/
def findClose : List Char → Option (List Char)
  | [] => none
  | '*' :: '/' :: rest => some rest
  | _ :: rest => findClose rest

/-- Fuelled worker for `re.sub(r'/\x2a.*?\x2a/', '', query, flags=re.DOTALL)`:
at each position, an opening marker with a later close is removed up to the
nearest close (non-greedy, leftmost first), otherwise the character is kept.
An opening marker with no close anywhere is left verbatim (no match can start
at or after it, since no close marker remains). -/
def rbcF : Nat → List Char → List Char
  | _, [] => []
  | Nat.succ n, '/' :: '*' :: rest =>
    (match findClose rest with
     | some rest2 => rbcF n rest2
     | none => '/' :: '*' :: rest)
  | Nat.succ n, c :: rest => c :: rbcF n rest
  | 0, cs => cs

/-- Removal of block comments, as performed first by `is_select_query`. -/
def removeBlockComments (cs : List Char) : List Char :=
  rbcF cs.length cs

/-- Python `line[:line.find('--')]` when the marker occurs, else the line. -/
def cutLineComment : List Char → List Char
  | [] => []
  | '-' :: '-' :: _ => []
  | c :: rest => c :: cutLineComment rest

/-- The per-line comment pass of `is_select_query`: split on `'\n'`, cut each
line at the first `--`, and re-join with `'\n'`. -/
def stripLineComments (cs : List Char) : List Char :=
  List.intercalate ['\n'] ((splitOnChar '\n' cs).map cutLineComment)

/-- Both comment passes of `is_select_query`, in source order: block comments
first, then line comments. -/
def clean_query (cs : List Char) : List Char :=
  stripLineComments (removeBlockComments cs)

/-- Removal of trailing ASCII whitespace (the right half of Python `strip`). -/
def rstripSp (cs : List Char) : List Char :=
  (cs.reverse.dropWhile isPySpace).reverse

/-- Python `cs.strip()` (ASCII whitespace). -/
def pyStrip (cs : List Char) : List Char :=
  rstripSp (cs.dropWhile isPySpace)

/-- Python `cleaned.strip().split()[0] if cleaned.strip() else ""`: the first
whitespace-delimited token of the text (empty when there is none). -/
def first_word (cs : List Char) : List Char :=
  let stripped := pyStrip cs
  if stripped.isEmpty then []
  else (stripped.dropWhile isPySpace).takeWhile (fun c => !isPySpace c)

/-- Embedding of `is_select_query` (server.py lines 118-140). -/
def is_select_query (query : String) : Bool :=
  upperL (first_word (clean_query query.data)) == "SELECT".data

/-- Specification-side reading of "the first whitespace-delimited token of the
text": drop leading whitespace, take the maximal whitespace-free run. -/
def specToken (cs : List Char) : List Char :=
  (cs.dropWhile isPySpace).takeWhile (fun c => !isPySpace c)

/-- Specification-side reading of "the first whitespace-delimited token is
exactly SELECT, case-insensitively". -/
def specIsSelect (cs : List Char) : Bool :=
  upperL (specToken cs) == upperL "SELECT".data

/-- The read/write statement kinds the handlers distinguish. -/
inductive StatementKind where
  | READ : StatementKind
  | WRITE : StatementKind
  deriving DecidableEq

/-- Classification as used by the handlers: `READ` iff `is_select_query`. -/
def classify (q : String) : StatementKind :=
  if is_select_query q then .READ else .WRITE

/-! ## `get_db_config` (server.py lines 32-112)

The environment is an explicit record of the eight variables the source
reads; the ODBC driver registry (`pyodbc.drivers()`) is a list parameter. -/

/-- The environment variables read by the source (a `none` field models an
unset variable). -/
structure Env where
  server : Option String
  database : Option String
  user : Option String
  password : Option String
  port : Option String
  windowsAuth : Option String
  encrypt : Option String
  command : Option String

/-- Fuelled worker for Python `str.replace(pat, '')`: remove non-overlapping
occurrences of `pat`, scanning left to right. -/
def removePatF (pat : List Char) : Nat → List Char → List Char
  | _, [] => []
  | Nat.succ n, c :: rest =>
    if pat.isPrefixOf (c :: rest) then removePatF pat n (List.drop pat.length (c :: rest))
    else c :: removePatF pat n rest
  | 0, cs => cs

/-- Server value after the LocalDB normalisation (server.py lines 35, 46-49):
default `"localhost"`, and a `(localdb)\instance` form is rewritten to the
prefix plus the instance name with every prefix occurrence removed. -/
def resolvedServer (env : Env) : String :=
  let server := env.server.getD "localhost"
  if startsWithStr "(localdb)\\" server then
    "(localdb)\\" ++ String.mk (removePatF "(localdb)\\".data server.data.length server.data)
  else server

/-- Test of `os.getenv("MSSQL_WINDOWS_AUTH", "false").lower() == "true"`. -/
def windowsAuthSet (env : Env) : Bool :=
  lowerStr (env.windowsAuth.getD "false") == "true"

/-- The `DRIVER={...}` connection-string element (server.py line 63). -/
def driverPart (d : String) : String :=
  "DRIVER=\x7b" ++ (d ++ "\x7d")

/-- The `SERVER=...` element (server.py lines 66-69): the port is appended
only when set, non-default and not a LocalDB server. -/
def serverPart (server port : String) : String :=
  if port ≠ "" ∧ port ≠ "1433" ∧ ¬ startsWithStr "(localdb)" server = true then
    "SERVER=" ++ (server ++ ("," ++ port))
  else "SERVER=" ++ server

/-- The authentication elements (server.py lines 76-87): integrated auth needs
no credentials; SQL auth requires both user and password (`none` = the
`ValueError` raise). -/
def authParts (use_windows_auth : Bool) (user password : String) : Option (List String) :=
  if use_windows_auth then some ["Trusted_Connection=yes"]
  else if user = "" ∨ password = "" then none
  else some ["UID=" ++ user, "PWD=" ++ password]

/-- The encryption elements (server.py lines 89-101): for a cloud host the
encrypt flag defaults on and demands certificate validation; otherwise it
defaults off and, when enabled, waives certificate validation. -/
def encParts (server : String) (encrypt : Option String) : List String :=
  if hasSubStr ".database.windows.net" server then
    (if lowerStr (encrypt.getD "true") == "true" then
      ["Encrypt=yes", "TrustServerCertificate=no"]
    else [])
  else
    (if lowerStr (encrypt.getD "false") == "true" then
      ["Encrypt=yes", "TrustServerCertificate=yes"]
    else [])

/-- The connection-string parts assembled by `get_db_config`, in source order
(driver, server, database, authentication, encryption), or the message of the
exception the source raises. -/
def buildConnParts (env : Env) (drivers : List String) : Except String (List String) :=
  match drivers.filter (fun d => hasSubStr "SQL Server" d) with
  | [] => .error "No SQL Server ODBC driver found. Please install ODBC Driver for SQL Server."
  | driver :: _ =>
    let server := resolvedServer env
    let port := env.port.getD "1433"
    if env.database.getD "" = "" then .error "Missing required database configuration"
    else
      match authParts (windowsAuthSet env) (env.user.getD "") (env.password.getD "") with
      | none => .error "Missing required database configuration"
      | some ap =>
        .ok ([driverPart driver, serverPart server port,
              "DATABASE=" ++ env.database.getD ""] ++ ap ++ encParts server env.encrypt)

/-- The dictionary returned by `get_db_config` (server.py lines 106-112). -/
structure DBConfig where
  conn_string : String
  server : String
  database : String
  user : String
  port : String
  deriving DecidableEq

/-- Embedding of `get_db_config` (server.py lines 32-112). -/
def get_db_config (env : Env) (drivers : List String) : Except String DBConfig :=
  match buildConnParts env drivers with
  | .error e => .error e
  | .ok parts =>
    .ok ⟨joinSep ";" parts, resolvedServer env, env.database.getD "",
         (if windowsAuthSet env then "Windows Auth" else env.user.getD ""),
         env.port.getD "1433"⟩

/-- Embedding of `get_command` (server.py lines 114-116). -/
def get_command (env : Env) : String :=
  env.command.getD "execute_sql"

/-! ## The request handlers (server.py lines 145-279)

The pyodbc connection/cursor is abstracted by an `Oracle`: each database
operation either succeeds or raises (`Except`), rows arrive already
stringified (the source's `str(cell)` per cell).  Each handler returns an
`ExecOut`: its Python result (`.error` = an exception escaping the handler)
together with how many connections the call opened and how many it closed
before returning. -/

/-- Abstract behaviour of the database layer for one handler call. -/
structure Oracle where
  connect : String → Except String Unit
  execute : String → Except String Unit
  description : List String
  fetchall : Except String (List (List String))
  rowcount : Int
  commit : Except String Unit

/-- A handler outcome: the returned value or escaping exception, plus the
number of connections opened and the number closed before returning. -/
structure ExecOut (α : Type) where
  res : Except String α
  opened : Nat
  closed : Nat
  deriving DecidableEq

/-- An MCP `Resource` value as constructed by `list_resources`. -/
structure MCPResource where
  uri : String
  name : String
  mimeType : String
  description : String
  deriving DecidableEq

/-- An MCP `TextContent` value as constructed by `call_tool`. -/
structure TextContent where
  type : String
  text : String
  deriving DecidableEq

/-- A single-quote character, used to write the catalog query without
apostrophes in a string literal. -/
def sq : String :=
  String.singleton (Char.ofNat 39)

/-- The catalog query issued by `list_resources` (server.py lines 153-157). -/
def listTablesSQL : String :=
  "\n            SELECT TABLE_NAME \n            FROM INFORMATION_SCHEMA.TABLES \n            WHERE TABLE_TYPE = "
    ++ sq ++ "BASE TABLE" ++ sq ++ "\n        "

/-- The resource descriptor built for one table (server.py lines 163-170). -/
def mkTableResource (t : String) : MCPResource :=
  ⟨"mssql://" ++ t ++ "/data", "Table: " ++ t, "text/plain", "Data in table: " ++ t⟩

/-- The error payload produced by `call_tool`'s exception handler. -/
def mkTextErr (e : String) : TextContent :=
  ⟨"text", "Error executing query: " ++ e⟩

/-- Embedding of `list_resources` (server.py lines 145-176).  `get_db_config`
runs before the `try` block, so its exception escapes; everything inside the
`try` degrades to an empty list. -/
def list_resources (env : Env) (drivers : List String) (o : Oracle) :
    ExecOut (List MCPResource) :=
  match get_db_config env drivers with
  | .error e => ⟨.error e, 0, 0⟩
  | .ok config =>
    match o.connect config.conn_string with
    | .error _ => ⟨.ok [], 0, 0⟩
    | .ok _ =>
      match o.execute listTablesSQL with
      | .error _ => ⟨.ok [], 1, 0⟩
      | .ok _ =>
        match o.fetchall with
        | .error _ => ⟨.ok [], 1, 0⟩
        | .ok tables =>
          ⟨.ok (tables.map (fun row => mkTableResource (row.headD ""))), 1, 1⟩

/-- Python `uri_str.startswith("mssql://")`. -/
def schemeOK (uri : String) : Bool :=
  startsWithStr "mssql://" uri

/-- Python `uri_str[8:].split('/')[0]`: the first path segment after the
scheme marker. -/
def tableOf (uri : String) : String :=
  String.mk ((uri.data.drop 8).takeWhile (fun c => !(c == '/')))

/-- Embedding of `read_resource` (server.py lines 178-208).  `get_db_config`
and the scheme check run before the `try` block; inside it, every exception is
re-raised as `RuntimeError("Database error: ...")` without closing the
connection. -/
def read_resource (env : Env) (drivers : List String) (o : Oracle) (uri : String) :
    ExecOut String :=
  match get_db_config env drivers with
  | .error e => ⟨.error e, 0, 0⟩
  | .ok config =>
    if schemeOK uri then
      match validate_table_name (tableOf uri) with
      | .error e => ⟨.error ("Database error: " ++ e), 0, 0⟩
      | .ok safe_table =>
        match o.connect config.conn_string with
        | .error e => ⟨.error ("Database error: " ++ e), 0, 0⟩
        | .ok _ =>
          match o.execute ("SELECT TOP 100 * FROM " ++ safe_table) with
          | .error e => ⟨.error ("Database error: " ++ e), 1, 0⟩
          | .ok _ =>
            match o.fetchall with
            | .error e => ⟨.error ("Database error: " ++ e), 1, 0⟩
            | .ok rows =>
              ⟨.ok (joinSep "\n"
                  (joinSep "," o.description ::
                    rows.map (fun row => joinSep "," row))), 1, 1⟩
    else ⟨.error ("Invalid URI scheme: " ++ uri), 0, 0⟩

/-- Embedding of `call_tool` (server.py lines 232-279).  `arguments` models
`arguments.get("query")`.  Config resolution, the tool-name check and the
query-presence check run before the `try` block and raise; inside the `try`,
every exception is caught and turned into an error `TextContent` inside a
normal return -- but the connection is only closed on the three success
paths. -/
def call_tool (env : Env) (drivers : List String) (o : Oracle)
    (name : String) (arguments : Option String) : ExecOut (List TextContent) :=
  match get_db_config env drivers with
  | .error e => ⟨.error e, 0, 0⟩
  | .ok config =>
    if name == get_command env then
      match arguments with
      | none => ⟨.error "Query is required", 0, 0⟩
      | some query =>
        if query == "" then ⟨.error "Query is required", 0, 0⟩
        else
          match o.connect config.conn_string with
          | .error e => ⟨.ok [mkTextErr e], 0, 0⟩
          | .ok _ =>
            match o.execute query with
            | .error e => ⟨.ok [mkTextErr e], 1, 0⟩
            | .ok _ =>
              if is_select_query query
                  && hasSubStr "INFORMATION_SCHEMA.TABLES" (upperStr query) then
                match o.fetchall with
                | .error e => ⟨.ok [mkTextErr e], 1, 0⟩
                | .ok tables =>
                  ⟨.ok [⟨"text", joinSep "\n"
                      (("Tables_in_" ++ config.database) ::
                        tables.map (fun row => row.headD ""))⟩], 1, 1⟩
              else if is_select_query query then
                match o.fetchall with
                | .error e => ⟨.ok [mkTextErr e], 1, 0⟩
                | .ok rows =>
                  ⟨.ok [⟨"text", joinSep "\n"
                      (joinSep "," o.description ::
                        rows.map (fun row => joinSep "," row))⟩], 1, 1⟩
              else
                match o.commit with
                | .error e => ⟨.ok [mkTextErr e], 1, 0⟩
                | .ok _ =>
                  ⟨.ok [⟨"text", "Query executed successfully. Rows affected: "
                      ++ toString o.rowcount⟩], 1, 1⟩
    else ⟨.error ("Unknown tool: " ++ name), 0, 0⟩

/-! ## Helper lemmas: the source tokenizer equals the specification tokenizer -/

lemma head_false_of_dropWhile_cons {p : Char → Bool} {l : List Char} {c : Char}
    {ys : List Char} (h : l.dropWhile p = c :: ys) : p c = false := by
  have hh := List.head?_dropWhile_not p l
  rw [h] at hh
  simpa using hh

lemma rstripSp_cons_of_nonspace {c : Char} {ys : List Char}
    (hc : isPySpace c = false) : rstripSp (c :: ys) = c :: rstripSp ys := by
  unfold rstripSp
  rw [List.reverse_cons, List.dropWhile_append]
  by_cases h : (ys.reverse.dropWhile isPySpace).isEmpty
  · rw [if_pos h]
    rw [List.isEmpty_iff] at h
    rw [h, List.dropWhile_cons_of_neg (by simp [hc])]
    simp
  · rw [if_neg h, List.reverse_append]
    simp

lemma rstripSp_cons_of_ne_nil {c : Char} {ys : List Char}
    (h : rstripSp ys ≠ []) : rstripSp (c :: ys) = c :: rstripSp ys := by
  have h2 : ¬ (ys.reverse.dropWhile isPySpace).isEmpty := by
    intro hab
    rw [List.isEmpty_iff] at hab
    exact h (by simp [rstripSp, hab])
  unfold rstripSp
  rw [List.reverse_cons, List.dropWhile_append, if_neg h2, List.reverse_append]
  simp

lemma takeWhile_rstripSp (z : List Char) :
    (rstripSp z).takeWhile (fun c => !isPySpace c) = z.takeWhile (fun c => !isPySpace c) := by
  induction z with
  | nil => rfl
  | cons d zs ih =>
    by_cases hd : isPySpace d = true
    · by_cases hz : rstripSp zs = []
      · have hz2 : zs.reverse.dropWhile isPySpace = [] := by
          have := congrArg List.reverse hz
          simpa [rstripSp] using this
        have : rstripSp (d :: zs) = [] := by
          unfold rstripSp
          rw [List.reverse_cons, List.dropWhile_append, if_pos (by simp [hz2])]
          simp [List.dropWhile_cons, hd]
        rw [this]
        simp [List.takeWhile_cons, hd]
      · rw [rstripSp_cons_of_ne_nil hz]
        simp only [List.takeWhile_cons, hd]
        simp only [Bool.not_true, ih]
    · have hd2 : isPySpace d = false := by simpa using hd
      rw [rstripSp_cons_of_nonspace hd2]
      simp only [List.takeWhile_cons, hd2]
      simp only [Bool.not_false, ih]

lemma first_word_eq_specToken (cs : List Char) : first_word cs = specToken cs := by
  unfold first_word pyStrip specToken
  cases h : cs.dropWhile isPySpace with
  | nil =>
    simp [rstripSp]
  | cons c ys =>
    have hc : isPySpace c = false := head_false_of_dropWhile_cons h
    rw [rstripSp_cons_of_nonspace hc]
    simp only [List.isEmpty_cons, if_false, Bool.false_eq_true]
    rw [List.dropWhile_cons_of_neg (by simp [hc])]
    rw [List.takeWhile_cons_of_pos (by simp [hc]), List.takeWhile_cons_of_pos (by simp [hc])]
    rw [takeWhile_rstripSp]

/-! ## Claim C1 -/

/-- Claim C1 states that `validate_table_name` accepts exactly the whole-string
matches of `[A-Za-z0-9_]+(\.[A-Za-z0-9_]+)?` and rejects everything else,
including strings containing whitespace.  The code disagrees: Python's
`re.match` lets `$` also match just before a trailing newline, so the
whitespace-bearing name `"abc\n"` is accepted and escaped to `"[abc\n]"`,
contradicting both the claim and the source's own comment ("Allow only
alphanumeric, underscore, and dot").  This theorem evaluates the embedded code
at that failing input (and, for contrast, at a conforming input and at an
input both agree is rejected). -/
theorem C1_trailing_newline_accepted :
    validate_table_name "abc\n" = Except.ok "[abc\n]" ∧
    validate_table_name "abc.def" = Except.ok "[abc].[def]" ∧
    validate_table_name "abc;DROP TABLE x" = Except.error "Invalid table name: abc;DROP TABLE x" := by
  refine ⟨by decide, by decide, by decide⟩

/-! ## Claim C2 -/

/-- Claim C2: the classifier strips block comments first, then line comments
per line, and returns READ if and only if the first whitespace-delimited token
of the remaining text is exactly SELECT case-insensitively; everything else,
including the empty statement, classifies as WRITE; with the three quoted
examples. -/
theorem C2_classify_first_token :
    (∀ q : String, classify q = StatementKind.READ ↔ specIsSelect (clean_query q.data) = true) ∧
    classify "-- SELECT\nUPDATE t SET x=1" = StatementKind.WRITE ∧
    classify "/* c */ SELECT * FROM t" = StatementKind.READ ∧
    classify "" = StatementKind.WRITE := by
  refine ⟨fun q => ?_, by decide, by decide, by decide⟩
  have hsel : upperL "SELECT".data = "SELECT".data := by decide
  constructor
  · intro h
    unfold classify at h
    by_cases hq : is_select_query q = true
    · unfold is_select_query at hq
      unfold specIsSelect
      rw [← first_word_eq_specToken, hsel]
      exact hq
    · simp [hq] at h
  · intro h
    unfold specIsSelect at h
    rw [← first_word_eq_specToken, hsel] at h
    unfold classify is_select_query
    rw [h]
    rfl

/-! ## Claim C8 -/

/-- Claim C8 asserts that reclassifying the already comment-stripped text
always yields the same `StatementKind` as classifying the original.  This is
false: removing a block comment can juxtapose a `/` and a `*` into a fresh
opening marker, so a second stripping pass can uncover a SELECT that the first
pass left hidden.  On `"//*a*/* b */ SELECT"` the first pass yields
`"/* b */ SELECT"` (first token `/*`, hence WRITE), while reclassifying that
stripped text strips `/* b */` and finds SELECT (READ). -/
theorem C8_counterexample :
    classify (String.mk (clean_query "//*a*/* b */ SELECT".data)) ≠
      classify "//*a*/* b */ SELECT" := by
  decide

/-- Claim C8, amended: reclassifying the already-stripped text yields the same
`StatementKind` whenever a second comment-stripping pass leaves the stripped
text unchanged (which the counterexample shows is not always the case). -/
theorem C8_restrip_stable_amended (q : String)
    (h : clean_query (clean_query q.data) = clean_query q.data) :
    classify (String.mk (clean_query q.data)) = classify q := by
  unfold classify is_select_query
  rw [show (String.mk (clean_query q.data)).data = clean_query q.data from rfl, h]

/-- Witness instantiating `C8_restrip_stable_amended` at a concrete statement
whose stripped form is stable under restripping. -/
theorem C8_witness :
    clean_query (clean_query "SELECT 1".data) = clean_query "SELECT 1".data ∧
    classify (String.mk (clean_query "SELECT 1".data)) = classify "SELECT 1" :=
  ⟨by decide, C8_restrip_stable_amended "SELECT 1" (by decide)⟩

/-! ## Helper lemmas: distinguishing connection-string elements -/

/-- Cloud-host test performed by the source on the resolved server value. -/
def azureHost (env : Env) : Bool :=
  hasSubStr ".database.windows.net" (resolvedServer env)

/-- First character of a string; distinct first characters separate the
parametrised connection-string elements. -/
def firstChar (s : String) : Option Char :=
  s.data.head?

lemma firstChar_append (s t : String) (h : s.data ≠ []) :
    firstChar (s ++ t) = firstChar s := by
  unfold firstChar
  rw [String.data_append]
  cases hs : s.data with
  | nil => exact absurd hs h
  | cons c cs => simp [hs]

lemma ne_of_firstChar {s t : String} (h : firstChar s ≠ firstChar t) : s ≠ t :=
  fun he => h (he ▸ rfl)

lemma firstChar_driverPart (d : String) : firstChar (driverPart d) = some 'D' := by
  unfold driverPart
  rw [firstChar_append _ _ (by decide)]
  decide

lemma firstChar_serverPart (s p : String) : firstChar (serverPart s p) = some 'S' := by
  unfold serverPart
  split
  · rw [firstChar_append _ _ (by decide)]
    decide
  · rw [firstChar_append _ _ (by decide)]
    decide

lemma firstChar_databasePart (d : String) : firstChar ("DATABASE=" ++ d) = some 'D' := by
  rw [firstChar_append _ _ (by decide)]
  decide

lemma firstChar_uidPart (u : String) : firstChar ("UID=" ++ u) = some 'U' := by
  rw [firstChar_append _ _ (by decide)]
  decide

lemma firstChar_pwdPart (p : String) : firstChar ("PWD=" ++ p) = some 'P' := by
  rw [firstChar_append _ _ (by decide)]
  decide

lemma authParts_cases (wa : Bool) (u p : String) (ap : List String)
    (h : authParts wa u p = some ap) :
    ap = ["Trusted_Connection=yes"] ∨ ap = ["UID=" ++ u, "PWD=" ++ p] := by
  unfold authParts at h
  split at h
  · exact Or.inl (by simpa using h.symm)
  · split at h
    · exact absurd h (by simp)
    · exact Or.inr (by simpa using h.symm)

lemma encrypt_not_mem_auth (wa : Bool) (u p : String) (ap : List String)
    (h : authParts wa u p = some ap) : "Encrypt=yes" ∉ ap := by
  rcases authParts_cases wa u p ap h with h2 | h2 <;> subst h2
  · decide
  · intro hm
    rcases List.mem_pair.mp hm with h3 | h3
    · exact ne_of_firstChar (by rw [firstChar_uidPart]; decide) h3.symm
    · exact ne_of_firstChar (by rw [firstChar_pwdPart]; decide) h3.symm

lemma tscNo_not_mem_auth (wa : Bool) (u p : String) (ap : List String)
    (h : authParts wa u p = some ap) : "TrustServerCertificate=no" ∉ ap := by
  rcases authParts_cases wa u p ap h with h2 | h2 <;> subst h2
  · decide
  · intro hm
    rcases List.mem_pair.mp hm with h3 | h3
    · exact ne_of_firstChar (by rw [firstChar_uidPart]; decide) h3.symm
    · exact ne_of_firstChar (by rw [firstChar_pwdPart]; decide) h3.symm

/-- Shape of a successful `buildConnParts` result: the fixed elements plus the
authentication and encryption sections. -/
lemma buildConnParts_ok_shape (env : Env) (drivers : List String) (parts : List String)
    (h : buildConnParts env drivers = Except.ok parts) :
    ∃ d ap, authParts (windowsAuthSet env) (env.user.getD "") (env.password.getD "") = some ap ∧
      parts = [driverPart d, serverPart (resolvedServer env) (env.port.getD "1433"),
               "DATABASE=" ++ env.database.getD ""] ++ ap ++
              encParts (resolvedServer env) env.encrypt := by
  unfold buildConnParts at h
  cases hf : drivers.filter (fun d => hasSubStr "SQL Server" d) with
  | nil => rw [hf] at h; exact absurd h (by simp)
  | cons d ds =>
    rw [hf] at h
    simp only at h
    split at h
    · exact absurd h (by simp)
    · cases ha : authParts (windowsAuthSet env) (env.user.getD "") (env.password.getD "") with
      | none => rw [ha] at h; exact absurd h (by simp)
      | some ap =>
        rw [ha] at h
        simp only [Except.ok.injEq] at h
        exact ⟨d, ap, rfl, h.symm⟩

/-! ## Claim C7 -/

/-- Claim C7: when the resolved host contains the cloud suffix
`.database.windows.net` and no explicit encryption override is given, the
assembled connection parts turn encryption ON with certificate validation
required (`TrustServerCertificate=no`); for non-cloud hosts encryption
defaults to OFF, and when explicitly enabled certificate validation is waived
(`TrustServerCertificate=yes`). -/
theorem C7_encryption_policy (env : Env) (drivers : List String) (parts : List String)
    (h : buildConnParts env drivers = Except.ok parts) :
    (azureHost env = true → env.encrypt = none →
      "Encrypt=yes" ∈ parts ∧ "TrustServerCertificate=no" ∈ parts) ∧
    (azureHost env = false → env.encrypt = none → "Encrypt=yes" ∉ parts) ∧
    (azureHost env = false → lowerStr (env.encrypt.getD "false") = "true" →
      "Encrypt=yes" ∈ parts ∧ "TrustServerCertificate=yes" ∈ parts ∧
        "TrustServerCertificate=no" ∉ parts) := by
  obtain ⟨d, ap, ha, hp⟩ := buildConnParts_ok_shape env drivers parts h
  subst hp
  refine ⟨fun haz hov => ?_, fun haz hov => ?_, fun haz hen => ?_⟩
  · have he : encParts (resolvedServer env) env.encrypt =
        ["Encrypt=yes", "TrustServerCertificate=no"] := by
      unfold encParts
      unfold azureHost at haz
      rw [if_pos haz, hov]
      rw [if_pos (by decide)]
    rw [he]
    constructor <;> simp
  · have he : encParts (resolvedServer env) env.encrypt = [] := by
      unfold encParts
      unfold azureHost at haz
      rw [if_neg (by simp [haz]), hov]
      rw [if_neg (by decide)]
    rw [he]
    intro hm
    rw [List.append_nil, List.mem_append] at hm
    rcases hm with hm | hm
    · simp only [List.mem_cons, List.not_mem_nil, or_false] at hm
      rcases hm with h1 | h1 | h1
      · exact ne_of_firstChar (by rw [firstChar_driverPart]; decide) h1.symm
      · exact ne_of_firstChar (by rw [firstChar_serverPart]; decide) h1.symm
      · exact ne_of_firstChar (by rw [firstChar_databasePart]; decide) h1.symm
    · exact encrypt_not_mem_auth _ _ _ _ ha hm
  · have he : encParts (resolvedServer env) env.encrypt =
        ["Encrypt=yes", "TrustServerCertificate=yes"] := by
      unfold encParts
      unfold azureHost at haz
      rw [if_neg (by simp [haz]), hen, if_pos (by decide)]
    rw [he]
    refine ⟨by simp, by simp, ?_⟩
    intro hm
    rw [List.mem_append, List.mem_append] at hm
    rcases hm with (hm | hm) | hm
    · simp only [List.mem_cons, List.not_mem_nil, or_false] at hm
      rcases hm with h1 | h1 | h1
      · exact ne_of_firstChar (by rw [firstChar_driverPart]; decide) h1.symm
      · exact ne_of_firstChar (by rw [firstChar_serverPart]; decide) h1.symm
      · exact ne_of_firstChar (by rw [firstChar_databasePart]; decide) h1.symm
    · exact tscNo_not_mem_auth _ _ _ _ ha hm
    · exact absurd hm (by decide)

/-- Concrete environments used by the witnesses and counterexamples. -/
def drvW : List String :=
  ["ODBC Driver 17 for SQL Server"]

/-- Environment with integrated auth, a database, and nothing else set. -/
def envW : Env :=
  ⟨none, some "mydb", none, none, none, some "true", none, none⟩

/-- Environment with SQL auth against a cloud host and no encryption setting. -/
def envAzure : Env :=
  ⟨some "srv.database.windows.net", some "mydb", some "sa", some "pw", none, none, none, none⟩

/-- The parts `buildConnParts` assembles for `envAzure` and `drvW`. -/
def partsAzure : List String :=
  ["DRIVER=\x7bODBC Driver 17 for SQL Server\x7d", "SERVER=srv.database.windows.net",
   "DATABASE=mydb", "UID=sa", "PWD=pw", "Encrypt=yes", "TrustServerCertificate=no"]

/-- Witness instantiating `C7_encryption_policy` on a concrete cloud-host
environment with no encryption override. -/
theorem C7_witness :
    "Encrypt=yes" ∈ partsAzure ∧ "TrustServerCertificate=no" ∈ partsAzure :=
  (C7_encryption_policy envAzure drvW partsAzure (by decide)).1 (by decide) rfl

/-! ## Claim C6 -/

/-- Claim C6: with the integrated-auth flag set, configuration resolution
never requires a principal or credential and never fails for their absence
(given a database name and an available driver); with the flag unset, a
missing principal or credential makes resolution fail with the
missing-configuration error. -/
theorem C6_integrated_auth (env : Env) (drivers : List String)
    (hdb : env.database.getD "" ≠ "")
    (hdrv : drivers.filter (fun d => hasSubStr "SQL Server" d) ≠ []) :
    (windowsAuthSet env = true → isOkE (buildConnParts env drivers) = true) ∧
    (windowsAuthSet env = false → (env.user.getD "" = "" ∨ env.password.getD "" = "") →
      buildConnParts env drivers = Except.error "Missing required database configuration") := by
  constructor
  · intro hwa
    unfold buildConnParts
    cases hf : drivers.filter (fun d => hasSubStr "SQL Server" d) with
    | nil => exact absurd hf hdrv
    | cons d ds =>
      simp only
      rw [if_neg hdb]
      unfold authParts
      rw [hwa]
      simp [isOkE]
  · intro hwa hcred
    unfold buildConnParts
    cases hf : drivers.filter (fun d => hasSubStr "SQL Server" d) with
    | nil => exact absurd hf hdrv
    | cons d ds =>
      simp only
      rw [if_neg hdb]
      unfold authParts
      rw [hwa]
      simp only [Bool.false_eq_true, if_false]
      rw [if_pos hcred]

/-- Environment with the integrated-auth flag unset and no credentials. -/
def envNoCred : Env :=
  ⟨none, some "mydb", none, none, none, none, none, none⟩

/-- Witness instantiating both halves of `C6_integrated_auth` concretely. -/
theorem C6_witness :
    isOkE (buildConnParts envW drvW) = true ∧
    buildConnParts envNoCred drvW = Except.error "Missing required database configuration" :=
  ⟨(C6_integrated_auth envW drvW (by decide) (by decide)).1 (by decide),
   (C6_integrated_auth envNoCred drvW (by decide) (by decide)).2 (by decide) (Or.inl rfl)⟩

/-! ## Claim C10 -/

/-- Claim C10 (implicit): when the host variable is absent, resolution
defaults the host to `localhost` and never fails for the absence of a host;
given a database name, an available driver, a default port and valid
authentication settings, resolution succeeds with `SERVER=localhost` among
the connection-string parts. -/
theorem C10_default_host (env : Env) (drivers : List String) (hs : env.server = none) :
    resolvedServer env = "localhost" ∧
    (env.port.getD "1433" = "1433" → env.database.getD "" ≠ "" →
      drivers.filter (fun d => hasSubStr "SQL Server" d) ≠ [] →
      (windowsAuthSet env = true ∨
        (env.user.getD "" ≠ "" ∧ env.password.getD "" ≠ "")) →
      ∃ parts, buildConnParts env drivers = Except.ok parts ∧
        "SERVER=localhost" ∈ parts) := by
  have hres : resolvedServer env = "localhost" := by
    unfold resolvedServer
    rw [hs]
    decide
  refine ⟨hres, fun hport hdb hdrv hauth => ?_⟩
  have hsp : serverPart (resolvedServer env) (env.port.getD "1433") = "SERVER=localhost" := by
    rw [hres, hport]
    unfold serverPart
    rw [if_neg (by simp)]
    decide
  have hap : ∃ ap, authParts (windowsAuthSet env) (env.user.getD "")
      (env.password.getD "") = some ap := by
    unfold authParts
    rcases hauth with hwa | ⟨hu, hp⟩
    · rw [hwa]
      exact ⟨_, rfl⟩
    · cases hwa : windowsAuthSet env
      · simp only [Bool.false_eq_true, if_false]
        rw [if_neg (by simp [hu, hp])]
        exact ⟨_, rfl⟩
      · exact ⟨_, rfl⟩
  obtain ⟨ap, hap⟩ := hap
  cases hf : drivers.filter (fun d => hasSubStr "SQL Server" d) with
  | nil => exact absurd hf hdrv
  | cons d ds =>
    refine ⟨[driverPart d, serverPart (resolvedServer env) (env.port.getD "1433"),
             "DATABASE=" ++ env.database.getD ""] ++ ap ++
              encParts (resolvedServer env) env.encrypt, ?_, ?_⟩
    · unfold buildConnParts
      rw [hf]
      simp only
      rw [if_neg hdb, hap]
    · rw [hsp]
      simp

/-- Witness instantiating `C10_default_host` on the concrete environment with
no host variable set. -/
theorem C10_witness :
    resolvedServer envW = "localhost" ∧
    ∃ parts, buildConnParts envW drvW = Except.ok parts ∧ "SERVER=localhost" ∈ parts := by
  have h := C10_default_host envW drvW rfl
  exact ⟨h.1, h.2 rfl (by decide) (by decide) (Or.inl (by decide))⟩

/-! ## Concrete oracles for the handler claims -/

/-- Oracle on which every database operation succeeds. -/
def oracleAllW : Oracle :=
  ⟨fun _ => .ok (), fun _ => .ok (), ["c1", "c2"], .ok [["1", "2"]], 3, .ok ()⟩

/-- Oracle whose `execute` raises after a successful `connect`. -/
def oracleFailExec : Oracle :=
  ⟨fun _ => .ok (), fun _ => .error "syntax error near x", ["c1"], .ok [], 0, .ok ()⟩

/-- Oracle whose `connect` raises. -/
def oracleConnFail : Oracle :=
  ⟨fun _ => .error "db down", fun _ => .ok (), [], .ok [], 0, .ok ()⟩

/-- Environment with no database name configured. -/
def envNoDb : Env :=
  ⟨none, none, none, none, none, some "true", none, none⟩

/-- An oracle on which every database operation succeeds. -/
def oracleOk (o : Oracle) : Prop :=
  (∀ s, isOkE (o.connect s) = true) ∧ (∀ s, isOkE (o.execute s) = true) ∧
    isOkE o.fetchall = true ∧ isOkE o.commit = true

/-! ## Claim C3 -/

/-- Claim C3: invoking `call_tool` with the configured tool name and a
present, non-empty query (and a resolvable configuration, which the source
reads before its `try` block) never raises: every failure during execution is
caught and returned as a textual payload inside a successful response. -/
theorem C3_call_tool_catches (env : Env) (drivers : List String) (o : Oracle) (q : String)
    (hc : isOkE (get_db_config env drivers) = true) (hq : q ≠ "") :
    isOkE (call_tool env drivers o (get_command env) (some q)).res = true := by
  cases hgc : get_db_config env drivers with
  | error e => rw [hgc] at hc; simp [isOkE] at hc
  | ok cfg =>
    unfold call_tool
    rw [hgc]
    simp only [beq_self_eq_true, if_true]
    rw [if_neg (by simp [hq])]
    cases o.connect cfg.conn_string with
    | error e => simp [isOkE]
    | ok u =>
      cases o.execute q with
      | error e => simp [isOkE]
      | ok u2 =>
        by_cases h1 : (is_select_query q
            && hasSubStr "INFORMATION_SCHEMA.TABLES" (upperStr q)) = true
        · rw [if_pos h1]
          cases o.fetchall with
          | error e => simp [isOkE]
          | ok t => simp [isOkE]
        · rw [if_neg h1]
          by_cases h2 : is_select_query q = true
          · rw [if_pos h2]
            cases o.fetchall with
            | error e => simp [isOkE]
            | ok t => simp [isOkE]
          · rw [if_neg h2]
            cases o.commit with
            | error e => simp [isOkE]
            | ok u3 => simp [isOkE]

/-- Witness instantiating `C3_call_tool_catches` on a concrete environment and
a failing database, observing a successful response. -/
theorem C3_witness :
    isOkE (get_db_config envW drvW) = true ∧
    isOkE (call_tool envW drvW oracleFailExec (get_command envW) (some "DROP TABLE t")).res
      = true :=
  ⟨by decide, C3_call_tool_catches envW drvW oracleFailExec "DROP TABLE t" (by decide) (by decide)⟩

/-! ## Claim C4 -/

/-- Claim C4 asserts that `read_resource` and `call_tool` open exactly one
connection per call and close it before returning on every exit path,
including error paths.  The code has no `finally`: when `execute` raises after
a successful `connect`, `call_tool` catches the exception and returns an error
payload with the connection still open.  This closed theorem exhibits that
path: one connection opened, none closed, yet a normal return. -/
theorem C4_counterexample :
    (call_tool envW drvW oracleFailExec (get_command envW) (some "SELECT 1")).opened = 1 ∧
    (call_tool envW drvW oracleFailExec (get_command envW) (some "SELECT 1")).closed = 0 ∧
    isOkE (call_tool envW drvW oracleFailExec (get_command envW) (some "SELECT 1")).res
      = true := by
  refine ⟨by decide, by decide, by decide⟩

/-- Claim C4, amended: each query-executing operation opens at most one
connection per call and never closes more than it opened; the connection is
closed before returning whenever `read_resource` returns successfully, and
whenever `call_tool` runs against a database on which every operation
succeeds — but (per the counterexample) not on error paths after `connect`. -/
theorem C4_connection_scope_amended (env : Env) (drivers : List String) (o : Oracle)
    (uri name : String) (args : Option String) :
    (read_resource env drivers o uri).opened ≤ 1 ∧
    (read_resource env drivers o uri).closed ≤ (read_resource env drivers o uri).opened ∧
    (isOkE (read_resource env drivers o uri).res = true →
      (read_resource env drivers o uri).opened = 1 ∧
        (read_resource env drivers o uri).closed = 1) ∧
    (call_tool env drivers o name args).opened ≤ 1 ∧
    (call_tool env drivers o name args).closed ≤ (call_tool env drivers o name args).opened ∧
    (oracleOk o →
      (call_tool env drivers o name args).closed = (call_tool env drivers o name args).opened) := by
  have hread : (read_resource env drivers o uri).opened ≤ 1 ∧
      (read_resource env drivers o uri).closed ≤ (read_resource env drivers o uri).opened ∧
      (isOkE (read_resource env drivers o uri).res = true →
        (read_resource env drivers o uri).opened = 1 ∧
          (read_resource env drivers o uri).closed = 1) := by
    unfold read_resource
    repeat' split
    all_goals exact ⟨by simp, by simp, by simp [isOkE]⟩
  have hcall12 : (call_tool env drivers o name args).opened ≤ 1 ∧
      (call_tool env drivers o name args).closed
        ≤ (call_tool env drivers o name args).opened := by
    unfold call_tool
    repeat' split
    all_goals exact ⟨by simp, by simp⟩
  have hcall3 : oracleOk o →
      (call_tool env drivers o name args).closed
        = (call_tool env drivers o name args).opened := by
    intro hall
    obtain ⟨hc1, hc2, hc3, hc4⟩ := hall
    have hcn : ∀ s, o.connect s = Except.ok () := by
      intro s
      have h := hc1 s
      cases hf : o.connect s with
      | ok u => rfl
      | error e => rw [hf] at h; simp [isOkE] at h
    have hex : ∀ s, o.execute s = Except.ok () := by
      intro s
      have h := hc2 s
      cases hf : o.execute s with
      | ok u => rfl
      | error e => rw [hf] at h; simp [isOkE] at h
    obtain ⟨t, hft⟩ : ∃ t, o.fetchall = Except.ok t := by
      cases hf : o.fetchall with
      | ok t => exact ⟨t, rfl⟩
      | error e => rw [hf] at hc3; simp [isOkE] at hc3
    have hcm : o.commit = Except.ok () := by
      cases hf : o.commit with
      | ok u => rfl
      | error e => rw [hf] at hc4; simp [isOkE] at hc4
    unfold call_tool
    repeat' split
    all_goals first
      | rfl
      | simp_all [isOkE]
  exact ⟨hread.1, hread.2.1, hread.2.2, hcall12.1, hcall12.2, hcall3⟩

/-- Witness instantiating `C4_connection_scope_amended` on concrete inputs:
the successful read closes its connection, and a fully successful tool call
balances opens and closes. -/
theorem C4_witness :
    (read_resource envW drvW oracleAllW "mssql://t/data").opened = 1 ∧
    (read_resource envW drvW oracleAllW "mssql://t/data").closed = 1 ∧
    (call_tool envW drvW oracleAllW (get_command envW) (some "SELECT 1")).closed =
      (call_tool envW drvW oracleAllW (get_command envW) (some "SELECT 1")).opened := by
  have h := C4_connection_scope_amended envW drvW oracleAllW "mssql://t/data"
    (get_command envW) (some "SELECT 1")
  exact ⟨(h.2.2.1 (by decide)).1, (h.2.2.1 (by decide)).2,
    h.2.2.2.2.2 ⟨fun s => rfl, fun s => rfl, rfl, rfl⟩⟩

/-! ## Claim C5 -/

/-- Claim C5 asserts that `list_resources` returns an empty list on any
failure rather than propagating.  But `get_db_config()` runs before the `try`
block: a configuration failure (here, a missing database name) escapes the
handler as an exception instead of yielding `[]`. -/
theorem C5_counterexample :
    (list_resources envNoDb drvW oracleAllW).res =
      Except.error "Missing required database configuration" := by
  decide

/-- Claim C5, amended: once configuration resolution succeeds, `list_resources`
never propagates an error, and any failure inside its `try` block (here, a
failing `connect`) degrades to the empty resource list; a configuration
failure, raised before the `try` block, still propagates. -/
theorem C5_listing_best_effort_amended (env : Env) (drivers : List String) (o : Oracle)
    (hc : isOkE (get_db_config env drivers) = true) :
    isOkE (list_resources env drivers o).res = true ∧
    (∀ e, (∀ s, o.connect s = Except.error e) →
      (list_resources env drivers o).res = Except.ok []) := by
  cases hgc : get_db_config env drivers with
  | error e0 => rw [hgc] at hc; simp [isOkE] at hc
  | ok cfg =>
    constructor
    · unfold list_resources
      repeat' split
      all_goals simp_all [isOkE]
    · intro e hconn
      unfold list_resources
      rw [hgc]
      dsimp only
      rw [hconn cfg.conn_string]

/-- Witness instantiating `C5_listing_best_effort_amended` on a concrete
environment with a failing connection, observing the degraded empty list. -/
theorem C5_witness :
    isOkE (list_resources envW drvW oracleConnFail).res = true ∧
    (list_resources envW drvW oracleConnFail).res = Except.ok [] := by
  have h := C5_listing_best_effort_amended envW drvW oracleConnFail (by decide)
  exact ⟨h.1, h.2 "db down" (fun s => rfl)⟩

/-! ## Claim C9 -/

/-- Claim C9 asserts that only URIs of the exact form `mssql://<table>/data`
are accepted and that every other form is rejected with an invalid-scheme
error.  The code only checks the `mssql://` prefix and then uses the first
path segment: the non-conforming URI `mssql://mytable/stuff` is accepted and
served exactly like `mssql://mytable/data`. -/
theorem C9_counterexample :
    (read_resource envW drvW oracleAllW "mssql://mytable/stuff").res =
      Except.ok "c1,c2\n1,2" := by
  decide

/-- Claim C9, amended: a URI is rejected with the invalid-scheme error exactly
when it does not start with `mssql://` (given configuration resolves, which
the source checks first); for accepted URIs only the first path segment after
`mssql://` is meaningful — two accepted URIs with the same first segment
behave identically, and no `/data` suffix check is performed. -/
theorem C9_uri_scheme_amended (env : Env) (drivers : List String) (o : Oracle)
    (uri₁ uri₂ : String) (h₁ : schemeOK uri₁ = true) (h₂ : schemeOK uri₂ = true)
    (ht : tableOf uri₁ = tableOf uri₂) :
    read_resource env drivers o uri₁ = read_resource env drivers o uri₂ ∧
    (∀ uri, isOkE (get_db_config env drivers) = true → schemeOK uri = false →
      (read_resource env drivers o uri).res = Except.error ("Invalid URI scheme: " ++ uri)) := by
  constructor
  · unfold read_resource
    cases get_db_config env drivers with
    | error e => rfl
    | ok cfg =>
      dsimp only
      rw [if_pos h₁, if_pos h₂, ht]
  · intro uri hok hbad
    cases hgc : get_db_config env drivers with
    | error e => rw [hgc] at hok; simp [isOkE] at hok
    | ok cfg =>
      unfold read_resource
      rw [hgc]
      dsimp only
      rw [if_neg (by simp [hbad])]

/-- Witness instantiating `C9_uri_scheme_amended`: the canonical `/data` URI
and a trailing-garbage URI with the same table segment give identical results,
and a wrong-scheme URI is rejected. -/
theorem C9_witness :
    read_resource envW drvW oracleAllW "mssql://t/data" =
      read_resource envW drvW oracleAllW "mssql://t/x" ∧
    (read_resource envW drvW oracleAllW "bad://x").res =
      Except.error ("Invalid URI scheme: " ++ "bad://x") := by
  have h := C9_uri_scheme_amended envW drvW oracleAllW "mssql://t/data" "mssql://t/x"
    (by decide) (by decide) (by decide)
  exact ⟨h.1, h.2 "bad://x" (by decide) (by decide)⟩

end MssqlMcp
